import Mathlib

/-!
Verification of the Doubao ASR client (`doubao_asr.py`): a shallow
embedding of the frame codec (`_build_header`, `_build_full_client_request`,
`_build_audio_request`, `_parse_server_response`), the chunked sending loop
of `recognize_audio_file_ws`, and the orchestration / fallback logic of
`recognize_audio_file` and `recognize_audio_file_http`.

Bytes are modelled as `Nat` values below 256 inside `List Nat`.  Python's
`int` arithmetic is modelled with `Int` where values can go negative
(the extension-header length computation), and with `Nat` elsewhere.
External library calls (gzip, `json.loads`) are passed in as explicit
function parameters, so every theorem quantifies over their behaviour;
`bytes.decode('utf-8')` is modelled concretely by a strict UTF-8 decoder,
because its failure is an uncaught exception path in the source.
-/

/-- `MessageType.FULL_CLIENT_REQUEST = 0b0001` from the `MessageType` enum. -/
def MessageType.FULL_CLIENT_REQUEST : Nat := 0b0001

/-- `MessageType.AUDIO_ONLY_REQUEST = 0b0010`. -/
def MessageType.AUDIO_ONLY_REQUEST : Nat := 0b0010

/-- `MessageType.FULL_SERVER_RESPONSE = 0b1001`. -/
def MessageType.FULL_SERVER_RESPONSE : Nat := 0b1001

/-- `MessageType.ERROR_RESPONSE = 0b1111`. -/
def MessageType.ERROR_RESPONSE : Nat := 0b1111

/-- `MessageFlags.NONE = 0b0000`. -/
def MessageFlags.NONE : Nat := 0b0000

/-- `SerializationMethod.NONE = 0b0000`. -/
def SerializationMethod.NONE : Nat := 0b0000

/-- `SerializationMethod.JSON = 0b0001`. -/
def SerializationMethod.JSON : Nat := 0b0001

/-- `CompressionType.NONE = 0b0000`. -/
def CompressionType.NONE : Nat := 0b0000

/-- `CompressionType.GZIP = 0b0001`. -/
def CompressionType.GZIP : Nat := 0b0001

/-- Python list/bytes index normalisation: a negative index counts from the
end (`i + len`); used by slice bounds before clamping. -/
def pyIndex (len : Nat) (i : Int) : Int :=
  if i < 0 then i + len else i

/-- Python slice `l[start:stop]`: normalise negative bounds, clamp into
`[0, len]`, and return the elements from `start` (inclusive) to `stop`
(exclusive); empty when `stop ≤ start`. -/
def pyslice (l : List Nat) (start stop : Int) : List Nat :=
  let s := (max 0 (min (pyIndex l.length start) (l.length : Int))).toNat
  let e := (max 0 (min (pyIndex l.length stop) (l.length : Int))).toNat
  (l.take e).drop s

/-- `int.from_bytes(l, "big", signed=False)`. -/
def from_bytes_be (l : List Nat) : Nat :=
  l.foldl (fun acc b => acc * 256 + b) 0

/-- `int.from_bytes(l, "big", signed=True)`: two's-complement reading of a
big-endian byte string. -/
def from_bytes_be_signed (l : List Nat) : Int :=
  let u := from_bytes_be l
  if 256 ^ l.length ≤ 2 * u then (u : Int) - 256 ^ l.length else (u : Int)

/-- `struct.pack('>I', n)`: 4-byte big-endian encoding of an unsigned
32-bit integer (the source only calls it with in-range payload sizes). -/
def pack_u32_be (n : Nat) : List Nat :=
  [n / 16777216 % 256, n / 65536 % 256, n / 256 % 256, n % 256]

/-- `DoubaoASREngine._build_header`: the 4-byte protocol header.
`byte0 = (0b0001 << 4) | 0b0001`, `byte1 = (msg_type << 4) | flags`,
`byte2 = (serialization << 4) | compression`, `byte3 = 0x00`. -/
def build_header (msg_type flags serialization compression : Nat) : List Nat :=
  [(0b0001 <<< 4) ||| 0b0001, (msg_type <<< 4) ||| flags,
   (serialization <<< 4) ||| compression, 0x00]

/-- `DoubaoASREngine._build_audio_request`: header tagged
`AUDIO_ONLY_REQUEST`/`NONE`/`NONE`/`NONE`, then the 4-byte big-endian
payload size, then the raw audio bytes.  The `is_last` parameter is
accepted but never used in the body. -/
def build_audio_request (audio_data : List Nat) (is_last : Bool) : List Nat :=
  let header := build_header MessageType.AUDIO_ONLY_REQUEST MessageFlags.NONE
    SerializationMethod.NONE CompressionType.NONE
  let payload_size := audio_data.length
  header ++ pack_u32_be payload_size ++ audio_data

/-- `DoubaoASREngine._send_last_packet` sends
`self._build_audio_request(b'', is_last=True)`. -/
def send_last_packet_frame : List Nat :=
  build_audio_request [] true

/-- Decode-side extraction of the message-type nibble,
`(header[1] >> 4) & 0x0F`, as read by `_parse_server_response`. -/
def msg_type_of (data : List Nat) : Nat :=
  data.getD 1 0 / 16 % 16

/-- Decode-side extraction of the flags nibble, `header[1] & 0x0F`. -/
def flags_of (data : List Nat) : Nat :=
  data.getD 1 0 % 16

/-- Decode-side extraction of the serialization nibble,
`(header[2] >> 4) & 0x0F`. -/
def serialization_of (data : List Nat) : Nat :=
  data.getD 2 0 / 16 % 16

/-- Decode-side extraction of the compression nibble, `header[2] & 0x0F`. -/
def compression_of (data : List Nat) : Nat :=
  data.getD 2 0 % 16

/-- A Python value as produced by `json.loads`: `None`, `bool`, `int`,
`str`, `list`, or `dict` (final key-to-value mapping, keys unique). -/
inductive PyVal where
  | none : PyVal
  | bool (b : Bool) : PyVal
  | int (n : Int) : PyVal
  | str (s : String) : PyVal
  | list (xs : List PyVal) : PyVal
  | dict (kvs : List (String × PyVal)) : PyVal

/-- `d.get(k, default)` on a Python dict modelled as an association list
with unique keys. -/
def dict_get (kvs : List (String × PyVal)) (k : String) (default : PyVal) : PyVal :=
  match kvs.find? (fun kv => kv.1 == k) with
  | Option.some kv => kv.2
  | Option.none => default

/-- Python `==` between a json-decoded value and an int literal (used for
`code != 1000`): ints compare by value, `True`/`False` compare as `1`/`0`,
all other types compare unequal to an int. -/
def pyEqInt (v : PyVal) (n : Int) : Bool :=
  match v with
  | PyVal.int m => m == n
  | PyVal.bool b => (if b then (1 : Int) else 0) == n
  | _ => false

/-- Whether a byte is a UTF-8 continuation byte (`0x80..0xBF`). -/
def utf8IsCont (b : Nat) : Bool :=
  0x80 ≤ b && b < 0xC0

/-- Strict UTF-8 decoding, modelling `bytes.decode('utf-8')`:
rejects stray continuation bytes, overlong encodings, surrogate code
points and code points above `0x10FFFF`, exactly as CPython's strict
codec does.  `Option.none` models the `UnicodeDecodeError` exception. -/
def utf8Decode : List Nat → Option (List Char)
  | [] => Option.some []
  | b :: rest =>
    if b < 0x80 then
      match utf8Decode rest with
      | Option.some cs => Option.some (Char.ofNat b :: cs)
      | Option.none => Option.none
    else if b < 0xC2 then Option.none
    else if b < 0xE0 then
      match rest with
      | b1 :: rest1 =>
        if utf8IsCont b1 then
          match utf8Decode rest1 with
          | Option.some cs => Option.some (Char.ofNat ((b - 0xC0) * 64 + (b1 - 0x80)) :: cs)
          | Option.none => Option.none
        else Option.none
      | [] => Option.none
    else if b < 0xF0 then
      match rest with
      | b1 :: b2 :: rest2 =>
        if utf8IsCont b1 && utf8IsCont b2 then
          let cp := (b - 0xE0) * 4096 + (b1 - 0x80) * 64 + (b2 - 0x80)
          if 0x800 ≤ cp && ¬ (0xD800 ≤ cp && cp ≤ 0xDFFF) then
            match utf8Decode rest2 with
            | Option.some cs => Option.some (Char.ofNat cp :: cs)
            | Option.none => Option.none
          else Option.none
        else Option.none
      | _ => Option.none
    else if b < 0xF5 then
      match rest with
      | b1 :: b2 :: b3 :: rest3 =>
        if utf8IsCont b1 && utf8IsCont b2 && utf8IsCont b3 then
          let cp := (b - 0xF0) * 262144 + (b1 - 0x80) * 4096 + (b2 - 0x80) * 64 + (b3 - 0x80)
          if 0x10000 ≤ cp && cp ≤ 0x10FFFF then
            match utf8Decode rest3 with
            | Option.some cs => Option.some (Char.ofNat cp :: cs)
            | Option.none => Option.none
          else Option.none
        else Option.none
      | _ => Option.none
    else Option.none

/-- The observable outcome of one `_parse_server_response` call.  Each
constructor corresponds to one `return` statement (or to the uncaught
exception path) of the source:
* `none`         — `return None` (any of the short-buffer / non-JSON /
                   gzip-failure / JSON-decode-failure paths);
* `formatError`  — `return ⟨"error": True, "message": f"...: ⟨data⟩",
                   "data": data⟩` for a non-dict top-level JSON value;
* `serverError`  — the `ERROR_RESPONSE` branch,
                   `message = data.get('message', 'Server error')`;
* `codeError`    — the `code != 1000` branch,
                   `message = data.get('message', '')`;
* `parsed`       — `return data_dict`, the success path;
* `raised`       — an exception escapes `_parse_server_response`
                   (the uncaught `UnicodeDecodeError` from
                   `payload_msg.decode('utf-8')`). -/
inductive ParseResult where
  | none : ParseResult
  | formatError (data : PyVal) : ParseResult
  | serverError (message : PyVal) (data : PyVal) : ParseResult
  | codeError (message : PyVal) (data : PyVal) : ParseResult
  | parsed (data : PyVal) : ParseResult
  | raised (exn : String) : ParseResult

/-- Extension-header length `(header_size - 1) * 4` computed by
`_parse_server_response` from the low nibble of byte 0; negative when the
header-size nibble is 0. -/
def extension_header_len_of (data : List Nat) : Int :=
  ((data.getD 0 0 % 16 : Nat) : Int) - 1 |> (· * 4)

/-- `payload_start = 4 + extension_header_len`. -/
def payload_start_of (data : List Nat) : Int :=
  4 + extension_header_len_of data

/-- The payload slice `data[payload_start:]` taken by
`_parse_server_response` once the length check passed. -/
def payload_of (data : List Nat) : List Nat :=
  pyslice data (payload_start_of data) data.length

/-- The message-kind dispatch of `_parse_server_response`: extracts
`payload_msg` for `FULL_SERVER_RESPONSE` (signed 4-byte length prefix) and
`ERROR_RESPONSE` (unsigned code, then unsigned length), `Option.none`
both for a short buffer and for an unrecognised message type (both make
the function return `None`). -/
def extract_payload_msg (msg_type : Nat) (payload : List Nat) : Option (List Nat) :=
  if msg_type == MessageType.FULL_SERVER_RESPONSE then
    if payload.length < 4 then Option.none
    else
      let payload_size := from_bytes_be_signed (pyslice payload 0 4)
      if (payload.length : Int) < 4 + payload_size then Option.none
      else Option.some (pyslice payload 4 (4 + payload_size))
  else if msg_type == MessageType.ERROR_RESPONSE then
    if payload.length < 8 then Option.none
    else
      let payload_size := from_bytes_be (pyslice payload 4 8)
      if payload.length < 8 + payload_size then Option.none
      else Option.some (pyslice payload 8 ((8 : Int) + payload_size))
  else Option.none

/-- `DoubaoASREngine._parse_server_response`.  `gzip_decompress` models
`gzip.decompress` (`Option.none` = an exception, which the source catches
and turns into `return None`); `json_loads` models `json.loads`
(`Option.none` = `json.JSONDecodeError`, caught, `return None`).  The
strict UTF-8 decode of the payload is concrete; its failure is the one
exception the source does not catch. -/
def parse_server_response (gzip_decompress : List Nat → Option (List Nat))
    (json_loads : String → Option PyVal) (data : List Nat) : ParseResult :=
  if data.length < 4 then ParseResult.none
  else
    let msg_type := msg_type_of data
    if (data.length : Int) < payload_start_of data then ParseResult.none
    else
      let payload := payload_of data
      match extract_payload_msg msg_type payload with
      | Option.none => ParseResult.none
      | Option.some payload_msg =>
        let decompressed :=
          if compression_of data == CompressionType.GZIP then
            gzip_decompress payload_msg
          else Option.some payload_msg
        match decompressed with
        | Option.none => ParseResult.none
        | Option.some payload_msg =>
          if serialization_of data == SerializationMethod.JSON then
            match utf8Decode payload_msg with
            | Option.none => ParseResult.raised "UnicodeDecodeError"
            | Option.some chars =>
              match json_loads (String.mk chars) with
              | Option.none => ParseResult.none
              | Option.some data_dict =>
                match data_dict with
                | PyVal.dict kvs =>
                  if msg_type == MessageType.ERROR_RESPONSE then
                    ParseResult.serverError
                      (dict_get kvs "message" (PyVal.str "Server error")) data_dict
                  else
                    let code := dict_get kvs "code" (PyVal.int 0)
                    let message := dict_get kvs "message" (PyVal.str "")
                    if ¬ pyEqInt code 1000 then ParseResult.codeError message data_dict
                    else ParseResult.parsed data_dict
                | _ => ParseResult.formatError data_dict
          else ParseResult.none

/-- `chunk_size = 900000` from `recognize_audio_file_ws`. -/
def chunk_size : Nat := 900000

/-- The chunks produced by the sending loop
`for i in range(0, len(audio_data), chunk_size): chunk = audio_data[i:i+chunk_size]`:
each iteration takes the next `chunk_size` bytes; the loop stops when no
bytes remain (empty chunks are skipped by the `if chunk:` guard and never
arise for a nonempty remainder). -/
def sendChunks (audio_data : List Nat) : List (List Nat) :=
  if h : audio_data = [] then []
  else audio_data.take chunk_size :: sendChunks (audio_data.drop chunk_size)
termination_by audio_data.length
decreasing_by
  simp only [List.length_drop]
  have hpos : 0 < audio_data.length := List.length_pos.mpr h
  have hc : 0 < chunk_size := by decide
  omega

/-- The audio frames written by the sending loop, in order: chunk `j`
(at byte offset `i = j * chunk_size`) is wrapped by
`_build_audio_request(chunk, is_last=(i + chunk_size >= len(audio_data)))`. -/
def audio_frames (audio_data : List Nat) : List (List Nat) :=
  (sendChunks audio_data).enum.map
    (fun ic => build_audio_request ic.2
      (decide (audio_data.length ≤ ic.1 * chunk_size + chunk_size)))

/-- The result-await loop
`while wait_time < max_wait: if self._final_result is not None: break; ...`
with `max_wait = 60`, one poll per second: `finalAt k` is the value of
`self._final_result` observed at poll `k`; the post-loop
`if self._final_result is None` re-read happens at `wait_time = 60`. -/
def poll_from (finalAt : Nat → Option String) (wait_time : Nat) : Option String :=
  if h : wait_time < 60 then
    match finalAt wait_time with
    | Option.some f => Option.some f
    | Option.none => poll_from finalAt (wait_time + 1)
  else finalAt wait_time
termination_by 60 - wait_time
decreasing_by omega

/-- The result-substitution step after the await loop: if no final result
was recorded, use `self._current_result` when truthy (nonempty), else the
empty string. -/
def resolve_final (final_result : Option String) (current_result : String) : String :=
  match final_result with
  | Option.some f => f
  | Option.none => if current_result = "" then "" else current_result

/-- `listener thread join timeout`: `self._ws_thread.join(timeout=1.0)`. -/
def listener_join_timeout : Nat := 1

/-- The mutable per-attempt state of `DoubaoASREngine` (the Session of the
spec): `_stop_event`, `_connected_event`, `_ready_event`,
`_current_result`, `_final_result`, `_sequence_number`, and whether `_ws`
and `_ws_thread` are set (`not None`). -/
structure Session where
  stop_event : Bool
  connected_event : Bool
  ready_event : Bool
  current_result : String
  final_result : Option String
  sequence_number : Nat
  ws : Bool
  ws_thread : Bool

/-- The state after the reset block at the start of
`recognize_audio_file_ws` (events cleared, results cleared, sequence 0)
followed immediately by creating the `WebSocketApp` and starting the
listener thread. -/
def session_after_reset : Session :=
  { stop_event := false, connected_event := false, ready_event := false,
    current_result := "", final_result := Option.none, sequence_number := 0,
    ws := true, ws_thread := true }

/-- The `finally` block of `recognize_audio_file_ws`: set the stop event;
if `_ws` is set, close it and clear it; if the listener thread is alive,
join it with `timeout=1.0`.  Returns the resulting session state and
`Option.some join-timeout` when a bounded join was performed. -/
def cleanup_session (s : Session) (thread_alive : Bool) : Session × Option Nat :=
  let s1 := { s with stop_event := true }
  let s2 := if s1.ws then { s1 with ws := false } else s1
  (s2, if s2.ws_thread && thread_alive then Option.some listener_join_timeout
       else Option.none)

/-- The environment of one streaming attempt: whether the audio file
exists, whether `_connected_event.wait(5.0)` and `_ready_event.wait(10.0)`
succeed, whether the socket reports connected during the send loop, the
decoded audio bytes, the value of `_final_result` at each poll of the
await loop, the value of `_current_result` at substitution time, and
whether the listener thread is alive at cleanup. -/
structure WsEnv where
  file_exists : Bool
  connected_in_time : Bool
  ready_in_time : Bool
  sock_connected : Bool
  audio : List Nat
  finalAt : Nat → Option String
  current_at_end : String
  thread_alive : Bool

/-- The observable outcome of one `recognize_audio_file_ws` call:
the returned text or raised error, the audio frames written to the socket
in order, whether the ready-timeout warning was logged, the bounded join
performed by the `finally` block, the session state right after the entry
reset (`Option.none` when the `FileNotFoundError` path exits before the
`try` block), and the session state after the `finally` block. -/
structure WsRun where
  outcome : Except String String
  frames_sent : List (List Nat)
  ready_warned : Bool
  join_wait : Option Nat
  session_at_start : Option Session
  session : Session

/-- `DoubaoASREngine.recognize_audio_file_ws`, as a function of the
attempt environment and the pre-call session state.  The
`FileNotFoundError` check precedes the `try`/`finally`, so that path
leaves the session untouched; the connect timeout raises
`RuntimeError("WebSocket 连接超时")` before any audio frame is sent; the
ready timeout only logs a warning; the send loop writes the chunk frames
then the empty last packet (all guarded by the socket-connected check);
the await loop polls `_final_result` for up to 60 seconds and substitutes
`_current_result` (or `""`) when no final result arrived; the `finally`
block always runs on try-block exit paths. -/
def recognize_audio_file_ws (env : WsEnv) (s0 : Session) : WsRun :=
  if env.file_exists = false then
    { outcome := Except.error "FileNotFoundError"
      frames_sent := []
      ready_warned := false
      join_wait := Option.none
      session_at_start := Option.none
      session := s0 }
  else
    let s1 := session_after_reset
    if env.connected_in_time = false then
      let cl := cleanup_session s1 env.thread_alive
      { outcome := Except.error "WebSocket 连接超时"
        frames_sent := []
        ready_warned := false
        join_wait := cl.2
        session_at_start := Option.some s1
        session := cl.1 }
    else
      let frames := if env.sock_connected then
          audio_frames env.audio ++ [send_last_packet_frame]
        else []
      let final0 := poll_from env.finalAt 0
      let result_text := resolve_final final0 env.current_at_end
      let s_run := { s1 with
        connected_event := true
        ready_event := env.ready_in_time
        current_result := env.current_at_end
        final_result := Option.some result_text }
      let cl := cleanup_session s_run env.thread_alive
      { outcome := Except.ok result_text
        frames_sent := frames
        ready_warned := !env.ready_in_time
        join_wait := cl.2
        session_at_start := Option.some s1
        session := cl.1 }

/-- `DoubaoASREngine.recognize_audio_file_http`.  `http_response` models
the HTTP exchange: `Option.none` is a transport error (an exception from
`requests.post`), `Option.some (status_code, text)` is a response with
its `X-Api-Status-Code` header and extracted result text.  Success is
decided solely by `status_code == '20000000'`; every failure path
(transport error or non-success status, which raises and is caught by
this function's own `except` clause) falls back to
`recognize_audio_file_ws`, whose outcome is `ws_result`. -/
def recognize_audio_file_http (http_response : Option (String × String))
    (ws_result : Except String String) : Except String String :=
  match http_response with
  | Option.none => ws_result
  | Option.some st =>
    if st.1 = "20000000" then Except.ok st.2 else ws_result

/-- `DoubaoASREngine.recognize_audio_file` (the orchestrator at line 741,
which overrides the earlier definition of the same name): call
`recognize_audio_file_http`; if that call raises (which happens exactly
when the streaming fallback inside it raised), catch and run
`recognize_audio_file_ws` a second time, producing `ws_result2`. -/
def recognize_audio_file (http_response : Option (String × String))
    (ws_result ws_result2 : Except String String) : Except String String :=
  match recognize_audio_file_http http_response ws_result with
  | Except.ok t => Except.ok t
  | Except.error _ => ws_result2

/-- UTF-8 encoding of one character (`str.encode('utf-8')`, per char). -/
def utf8EncodeChar (c : Char) : List Nat :=
  let n := c.toNat
  if n < 0x80 then [n]
  else if n < 0x800 then [0xC0 + n / 64, 0x80 + n % 64]
  else if n < 0x10000 then
    [0xE0 + n / 4096, 0x80 + n / 64 % 64, 0x80 + n % 64]
  else
    [0xF0 + n / 262144, 0x80 + n / 4096 % 64, 0x80 + n / 64 % 64, 0x80 + n % 64]

/-- `payload_json.encode('utf-8')`. -/
def utf8Encode (s : String) : List Nat :=
  (s.data.map utf8EncodeChar).flatten

/-- `json.dumps(payload)` for the dict literal built by
`_build_full_client_request`, with Python's default separators and
insertion order; `ts` is `int(time.time())` in the `user.uid` field and
`reqid` is `str(uuid.uuid4())`.  The parameter strings are assumed free
of characters that `json.dumps` escapes (true of the uuid and of the
credential strings the engine is configured with). -/
def full_client_payload_json (appid token cluster : String) (ts : Nat)
    (rate : Nat) (reqid : String) : String :=
  "\x7b\"app\": \x7b\"appid\": \"" ++ appid ++ "\", \"token\": \"" ++ token ++
  "\", \"cluster\": \"" ++ cluster ++
  "\"\x7d, \"user\": \x7b\"uid\": \"bili2text_" ++ toString ts ++
  "\"\x7d, \"audio\": \x7b\"format\": \"raw\", \"codec\": \"raw\", \"rate\": " ++
  toString rate ++
  ", \"bits\": 16, \"channel\": 1\x7d, \"request\": \x7b\"reqid\": \"" ++ reqid ++
  "\", \"sequence\": 1, \"nbest\": 1, \"workflow\": \"audio_in,resample,partition,vad,fe,decode,itn,nlu_punctuate\", \"show_utterances\": false, \"result_type\": \"full\"\x7d\x7d"

/-- `DoubaoASREngine._build_full_client_request`: serialize the
configuration payload as JSON, gzip-compress it (`gzip_compress` models
`gzip.compress`), and emit
`header(FULL_CLIENT_REQUEST, NONE, JSON, GZIP) ++ pack('>I', size) ++ payload`. -/
def build_full_client_request (gzip_compress : List Nat → List Nat)
    (appid token cluster : String) (ts rate : Nat) (reqid : String) : List Nat :=
  let payload_json := full_client_payload_json appid token cluster ts rate reqid
  let payload_bytes := gzip_compress (utf8Encode payload_json)
  let payload_size := payload_bytes.length
  let header := build_header MessageType.FULL_CLIENT_REQUEST MessageFlags.NONE
    SerializationMethod.JSON CompressionType.GZIP
  header ++ pack_u32_be payload_size ++ payload_bytes

theorem pyslice_coe (l : List Nat) (a b : Nat) :
    pyslice l (a : Int) (b : Int) = (l.take b).drop a := by
  simp only [pyslice, pyIndex]
  rw [if_neg (by omega), if_neg (by omega)]
  have hs : (max 0 (min ((a : Nat) : Int) ((l.length : Nat) : Int))).toNat
      = min a l.length := by omega
  have he : (max 0 (min ((b : Nat) : Int) ((l.length : Nat) : Int))).toNat
      = min b l.length := by omega
  rw [hs, he]
  have ht : l.take (min b l.length) = l.take b :=
    List.take_eq_take.mpr (by omega)
  rw [ht]
  rcases le_or_lt a l.length with h | h
  · rw [Nat.min_eq_left h]
  · rw [Nat.min_eq_right (Nat.le_of_lt h)]
    rw [List.drop_eq_nil_of_le, List.drop_eq_nil_of_le]
    · simp only [List.length_take]; omega
    · simp only [List.length_take]; omega

theorem pyslice_drop (l : List Nat) (a : Nat) :
    pyslice l (a : Int) (l.length : Int) = l.drop a := by
  rw [pyslice_coe, List.take_length]

theorem pack_u32_be_length (n : Nat) : (pack_u32_be n).length = 4 := rfl

theorem from_bytes_be_pack (n : Nat) (h : n < 4294967296) :
    from_bytes_be (pack_u32_be n) = n := by
  simp only [from_bytes_be, pack_u32_be, List.foldl_cons, List.foldl_nil]
  omega

theorem from_bytes_be_signed_pack (n : Nat) (h : n < 2147483648) :
    from_bytes_be_signed (pack_u32_be n) = (n : Int) := by
  simp only [from_bytes_be_signed, pack_u32_be_length, from_bytes_be_pack n (by omega)]
  rw [if_neg (by norm_num; omega)]

theorem sendChunks_nil : sendChunks [] = [] := by
  rw [sendChunks]
  exact dif_pos rfl

theorem sendChunks_cons (a : List Nat) (h : a ≠ []) :
    sendChunks a = a.take chunk_size :: sendChunks (a.drop chunk_size) := by
  rw [sendChunks]
  exact dif_neg h

theorem sendChunks_ne_nil (a : List Nat) (h : a ≠ []) : sendChunks a ≠ [] := by
  rw [sendChunks_cons a h]
  exact List.cons_ne_nil _ _

theorem sendChunks_flatten (a : List Nat) : (sendChunks a).flatten = a := by
  generalize hn : a.length = n
  induction n using Nat.strong_induction_on generalizing a with
  | _ n ih =>
    by_cases h : a = []
    · subst h; rw [sendChunks_nil]; rfl
    · have hlt : (a.drop chunk_size).length < n := by
        subst hn
        have hpos : 0 < a.length := List.length_pos.mpr h
        have hc : 0 < chunk_size := by decide
        simp only [List.length_drop]
        omega
      rw [sendChunks_cons a h, List.flatten_cons,
        ih (a.drop chunk_size).length hlt (a.drop chunk_size) rfl,
        List.take_append_drop]

theorem sendChunks_length (a : List Nat) (h : a ≠ []) :
    (sendChunks a).length = (a.length + chunk_size - 1) / chunk_size := by
  generalize hn : a.length = n
  induction n using Nat.strong_induction_on generalizing a with
  | _ n ih =>
    subst hn
    have hc : 0 < chunk_size := by decide
    have hpos : 0 < a.length := List.length_pos.mpr h
    rcases le_or_lt a.length chunk_size with hle | hgt
    · rw [sendChunks_cons a h, List.drop_eq_nil_of_le hle, sendChunks_nil]
      have h1 : a.length + chunk_size - 1 = (a.length - 1) + chunk_size := by omega
      rw [List.length_cons, List.length_nil, h1, Nat.add_div_right _ hc,
        Nat.div_eq_of_lt (by omega)]
    · have hd : a.drop chunk_size ≠ [] := by
        intro hnil
        have hwork := congrArg List.length hnil
        simp only [List.length_drop, List.length_nil] at hwork
        omega
      have hlt : (a.drop chunk_size).length < a.length := by
        simp only [List.length_drop]
        omega
      rw [sendChunks_cons a h, List.length_cons,
        ih (a.drop chunk_size).length hlt (a.drop chunk_size) hd rfl]
      simp only [List.length_drop]
      have h2 : a.length + chunk_size - 1
          = ((a.length - chunk_size) + chunk_size - 1) + chunk_size := by omega
      rw [h2, Nat.add_div_right _ hc]

theorem sendChunks_dropLast_length (a : List Nat) :
    ∀ c ∈ (sendChunks a).dropLast, c.length = chunk_size := by
  generalize hn : a.length = n
  induction n using Nat.strong_induction_on generalizing a with
  | _ n ih =>
    by_cases h : a = []
    · subst h
      rw [sendChunks_nil]
      intro c hc
      simp at hc
    · rcases le_or_lt a.length chunk_size with hle | hgt
      · rw [sendChunks_cons a h, List.drop_eq_nil_of_le hle, sendChunks_nil]
        intro c hc
        simp at hc
      · have hd : a.drop chunk_size ≠ [] := by
          intro hnil
          have hwork := congrArg List.length hnil
          have hpos : 0 < a.length := List.length_pos.mpr h
          simp only [List.length_drop, List.length_nil] at hwork
          omega
        have hlt : (a.drop chunk_size).length < n := by
          subst hn
          have hc0 : 0 < chunk_size := by decide
          simp only [List.length_drop]
          omega
        rw [sendChunks_cons a h,
          List.dropLast_cons_of_ne_nil (sendChunks_ne_nil _ hd)]
        intro c hc
        rcases List.mem_cons.mp hc with rfl | hmem
        · simp only [List.length_take]
          omega
        · exact ih (a.drop chunk_size).length hlt (a.drop chunk_size) rfl c hmem

theorem sendChunks_mem (a : List Nat) :
    ∀ c ∈ sendChunks a, c.length ≤ chunk_size ∧ c ≠ [] := by
  generalize hn : a.length = n
  induction n using Nat.strong_induction_on generalizing a with
  | _ n ih =>
    by_cases h : a = []
    · subst h
      rw [sendChunks_nil]
      intro c hc
      simp at hc
    · have hpos : 0 < a.length := List.length_pos.mpr h
      have hc0 : 0 < chunk_size := by decide
      have hlt : (a.drop chunk_size).length < n := by
        subst hn
        simp only [List.length_drop]
        omega
      rw [sendChunks_cons a h]
      intro c hc
      rcases List.mem_cons.mp hc with rfl | hmem
      · constructor
        · simp only [List.length_take]
          omega
        · intro hnil
          have hwork := congrArg List.length hnil
          simp only [List.length_take, List.length_nil] at hwork
          omega
      · exact ih (a.drop chunk_size).length hlt (a.drop chunk_size) rfl c hmem

theorem build_audio_request_drop8 (c : List Nat) (b : Bool) :
    (build_audio_request c b).drop 8 = c := rfl

theorem audio_frames_payloads (a : List Nat) :
    (audio_frames a).map (fun f => f.drop 8) = sendChunks a := by
  simp only [audio_frames, List.map_map, Function.comp_def, build_audio_request_drop8]
  exact List.enum_map_snd _

/-- C3: for every audio buffer of `N > 0` bytes, the sending loop of
`recognize_audio_file_ws` splits it into exactly `ceil(N / 900000)` chunks,
the concatenation of all chunks (in send order) equals the original buffer
byte-for-byte, every chunk except possibly the last has exactly `900000`
bytes, no chunk exceeds `900000` bytes or is empty, and the payloads of
the audio frames written to the socket are exactly these chunks in input
order. -/
theorem sendChunks_spec (audio_data : List Nat) (h : 0 < audio_data.length) :
    (sendChunks audio_data).length
      = (audio_data.length + chunk_size - 1) / chunk_size ∧
    (sendChunks audio_data).flatten = audio_data ∧
    (∀ c ∈ (sendChunks audio_data).dropLast, c.length = chunk_size) ∧
    (∀ c ∈ sendChunks audio_data, c.length ≤ chunk_size ∧ c ≠ []) ∧
    (audio_frames audio_data).map (fun f => f.drop 8) = sendChunks audio_data := by
  have hne : audio_data ≠ [] := by
    intro hnil
    rw [hnil] at h
    simp at h
  exact ⟨sendChunks_length audio_data hne, sendChunks_flatten audio_data,
    sendChunks_dropLast_length audio_data, sendChunks_mem audio_data,
    audio_frames_payloads audio_data⟩

/-- Witness for `sendChunks_spec` at the concrete buffer `[1, 2, 3]`. -/
theorem sendChunks_spec_witness :
    0 < ([1, 2, 3] : List Nat).length ∧
    ((sendChunks [1, 2, 3]).length
      = (([1, 2, 3] : List Nat).length + chunk_size - 1) / chunk_size ∧
    (sendChunks [1, 2, 3]).flatten = [1, 2, 3] ∧
    (∀ c ∈ (sendChunks [1, 2, 3]).dropLast, c.length = chunk_size) ∧
    (∀ c ∈ sendChunks [1, 2, 3], c.length ≤ chunk_size ∧ c ≠ []) ∧
    (audio_frames [1, 2, 3]).map (fun f => f.drop 8) = sendChunks [1, 2, 3]) :=
  ⟨by decide, sendChunks_spec [1, 2, 3] (by decide)⟩

/-- C5: `_build_audio_request` emits byte-identical output for both values
of `is_last` — the flag is not encoded at the bit level; its header is
always tagged `AUDIO_ONLY_REQUEST` with flags `NONE`, serialization `NONE`
and compression `NONE`, and decoding that header recovers those nibbles;
the end-of-stream signal sent by `_send_last_packet` is just an audio
frame whose payload is empty. -/
theorem build_audio_request_ignores_is_last :
    ∀ (audio_data : List Nat) (last1 last2 : Bool),
    build_audio_request audio_data last1 = build_audio_request audio_data last2 ∧
    (build_audio_request audio_data last1).take 4
      = build_header MessageType.AUDIO_ONLY_REQUEST MessageFlags.NONE
          SerializationMethod.NONE CompressionType.NONE ∧
    msg_type_of (build_audio_request audio_data last1)
      = MessageType.AUDIO_ONLY_REQUEST ∧
    flags_of (build_audio_request audio_data last1) = MessageFlags.NONE ∧
    serialization_of (build_audio_request audio_data last1)
      = SerializationMethod.NONE ∧
    compression_of (build_audio_request audio_data last1)
      = CompressionType.NONE ∧
    send_last_packet_frame = build_audio_request [] true ∧
    send_last_packet_frame.drop 8 = [] := by
  intro audio_data last1 last2
  have hb1 : (build_audio_request audio_data last1).getD 1 0 = 32 := rfl
  have hb2 : (build_audio_request audio_data last1).getD 2 0 = 0 := rfl
  refine ⟨rfl, rfl, ?_, ?_, ?_, ?_, rfl, rfl⟩ <;>
    simp only [msg_type_of, flags_of, serialization_of, compression_of, hb1, hb2] <;>
    decide

theorem poll_from_none (finalAt : Nat → Option String)
    (h : ∀ j, j ≤ 60 → finalAt j = Option.none) (k : Nat) (hk : k ≤ 60) :
    poll_from finalAt k = Option.none := by
  rw [poll_from]
  by_cases hlt : k < 60
  · rw [dif_pos hlt, h k (Nat.le_of_lt hlt)]
    exact poll_from_none finalAt h (k + 1) hlt
  · rw [dif_neg hlt]
    exact h k hk
termination_by 60 - k

/-- C2 counterexample: `recognize_audio_file_http` — the Batch Engine entry
point — does fall back by itself.  With an HTTP response whose status
header is not the success code `'20000000'`, it returns the Streaming
Engine's result (here `Except.ok "ws-text"`) instead of surfacing its own
failure, and when the streaming fallback raises, that error is what
escapes the batch call. -/
theorem recognize_audio_file_http_falls_back_itself :
    recognize_audio_file_http (Option.some ("45000001", "ignored"))
      (Except.ok "ws-text") = Except.ok "ws-text" ∧
    recognize_audio_file_http (Option.some ("45000001", "ignored"))
      (Except.error "ws boom") = Except.error "ws boom" := by
  constructor
  · simp [recognize_audio_file_http]
  · simp [recognize_audio_file_http]

/-- C2 amended: `recognize_audio_file` attempts the batch HTTP request
first and returns its text on status `'20000000'`; the streaming fallback
is performed inside `recognize_audio_file_http` itself on any transport
error or non-success status; `recognize_audio_file`'s own handler runs a
second streaming attempt exactly when the first streaming attempt raised;
an error reaches the caller only if both streaming attempts fail. -/
theorem recognize_fallback_policy :
    ∀ (http_response : Option (String × String))
      (ws_result ws_result2 : Except String String),
    (∀ text, http_response = Option.some ("20000000", text) →
      recognize_audio_file http_response ws_result ws_result2
        = Except.ok text) ∧
    (http_response = Option.none →
      recognize_audio_file_http http_response ws_result = ws_result) ∧
    (∀ status text, http_response = Option.some (status, text) →
      status ≠ "20000000" →
      recognize_audio_file_http http_response ws_result = ws_result) ∧
    (∀ e, recognize_audio_file http_response ws_result ws_result2
        = Except.error e →
      ws_result2 = Except.error e ∧
      (∃ e2, recognize_audio_file_http http_response ws_result
        = Except.error e2) ∧
      (∃ e1, ws_result = Except.error e1)) := by
  intro http_response ws_result ws_result2
  refine ⟨?_, ?_, ?_, ?_⟩
  · intro text hresp
    subst hresp
    simp [recognize_audio_file, recognize_audio_file_http]
  · intro hresp
    subst hresp
    rfl
  · intro status text hresp hne
    subst hresp
    simp [recognize_audio_file_http, hne]
  · intro e herr
    rcases hhttp : recognize_audio_file_http http_response ws_result with e2 | t
    · rw [recognize_audio_file, hhttp] at herr
      refine ⟨herr, ⟨e2, rfl⟩, ?_⟩
      rcases http_response with _ | ⟨status, text⟩
      · exact ⟨e2, hhttp⟩
      · by_cases hs : status = "20000000"
        · simp [recognize_audio_file_http, hs] at hhttp
        · simp only [recognize_audio_file_http, hs, if_false] at hhttp
          exact ⟨e2, hhttp⟩
    · rw [recognize_audio_file, hhttp] at herr
      simp at herr

/-- Witness for `recognize_fallback_policy`: a non-success status makes the
batch entry point return the streaming result. -/
theorem recognize_fallback_policy_witness :
    recognize_audio_file_http (Option.some ("55000000", "t")) (Except.ok "ws")
      = Except.ok "ws" :=
  (recognize_fallback_policy (Option.some ("55000000", "t")) (Except.ok "ws")
    (Except.ok "w2")).2.2.1 "55000000" "t" rfl (by decide)

/-- C6: if no final result is recorded within the 60-second polling budget
(every poll, and the post-loop re-read, observe `None`), the streaming
attempt returns the accumulated partial result when it is nonempty and
otherwise the empty string; in both cases it completes normally with a
returned string (`Except.ok`), not an error. -/
theorem ws_result_timeout_substitution :
    ∀ (env : WsEnv) (s0 : Session),
    env.file_exists = true →
    env.connected_in_time = true →
    (∀ j, j ≤ 60 → env.finalAt j = Option.none) →
    (recognize_audio_file_ws env s0).outcome
      = Except.ok (if env.current_at_end = "" then "" else env.current_at_end) ∧
    (env.current_at_end ≠ "" →
      (recognize_audio_file_ws env s0).outcome
        = Except.ok env.current_at_end) := by
  intro env s0 hf hc hnone
  have hp : poll_from env.finalAt 0 = Option.none :=
    poll_from_none env.finalAt hnone 0 (by omega)
  constructor
  · simp [recognize_audio_file_ws, hf, hc, hp, resolve_final]
  · intro hcur
    simp [recognize_audio_file_ws, hf, hc, hp, resolve_final, hcur]

/-- Witness for `ws_result_timeout_substitution` at a concrete
environment whose listener records only the partial result `"部分"`. -/
theorem ws_result_timeout_substitution_witness :
    (recognize_audio_file_ws
      { file_exists := true
        connected_in_time := true
        ready_in_time := true
        sock_connected := false
        audio := []
        finalAt := fun _ => Option.none
        current_at_end := "部分"
        thread_alive := false }
      { stop_event := false
        connected_event := false
        ready_event := false
        current_result := ""
        final_result := Option.none
        sequence_number := 0
        ws := false
        ws_thread := false }).outcome = Except.ok "部分" :=
  (ws_result_timeout_substitution _ _ rfl rfl
    (fun j _ => rfl)).2 (by decide)

/-- C7: with no connection-established signal within 5 seconds the
streaming attempt raises the connection-timeout error and sends no audio
frame (it fails before the sending phase); with the connection
established but no server-readiness signal within 10 seconds, the timeout
is only recorded as a warning and the engine still proceeds to send the
audio frames and the end-of-stream packet, completing with a returned
string. -/
theorem ws_connect_and_ready_timeout_behavior :
    ∀ (env : WsEnv) (s0 : Session),
    env.file_exists = true →
    (env.connected_in_time = false →
      (recognize_audio_file_ws env s0).outcome
        = Except.error "WebSocket 连接超时" ∧
      (recognize_audio_file_ws env s0).frames_sent = []) ∧
    (env.connected_in_time = true → env.ready_in_time = false →
      (recognize_audio_file_ws env s0).ready_warned = true ∧
      (∃ text, (recognize_audio_file_ws env s0).outcome = Except.ok text) ∧
      (env.sock_connected = true →
        (recognize_audio_file_ws env s0).frames_sent
          = audio_frames env.audio ++ [send_last_packet_frame] ∧
        (recognize_audio_file_ws env s0).frames_sent ≠ [])) := by
  intro env s0 hf
  constructor
  · intro hc
    simp [recognize_audio_file_ws, hf, hc]
  · intro hc hr
    refine ⟨?_, ?_, ?_⟩
    · simp [recognize_audio_file_ws, hf, hc, hr]
    · exact ⟨resolve_final (poll_from env.finalAt 0) env.current_at_end,
        by simp [recognize_audio_file_ws, hf, hc]⟩
    · intro hs
      constructor
      · simp [recognize_audio_file_ws, hf, hc, hs]
      · simp [recognize_audio_file_ws, hf, hc, hs]

/-- Witness for `ws_connect_and_ready_timeout_behavior`: a connect timeout
at a concrete environment yields the fatal error with no frames sent. -/
theorem ws_connect_and_ready_timeout_behavior_witness :
    (recognize_audio_file_ws
      { file_exists := true
        connected_in_time := false
        ready_in_time := false
        sock_connected := true
        audio := [7]
        finalAt := fun _ => Option.none
        current_at_end := ""
        thread_alive := true }
      { stop_event := false
        connected_event := false
        ready_event := false
        current_result := ""
        final_result := Option.none
        sequence_number := 0
        ws := false
        ws_thread := false }).outcome = Except.error "WebSocket 连接超时" :=
  ((ws_connect_and_ready_timeout_behavior _ _ rfl).1 rfl).1

/-- C8 counterexample: the session is not fully reset on exit.  At a
concrete successful attempt whose listener recorded the final result
`"done"`, the post-`finally` session still holds
`final_result = some "done"` and `ready_event = true` — only the stop
flag, the connection handle and the thread join are handled on exit; the
result and event fields are cleared at the start of the next attempt
instead. -/
theorem ws_exit_does_not_reset_result_fields :
    (recognize_audio_file_ws
      { file_exists := true
        connected_in_time := true
        ready_in_time := true
        sock_connected := false
        audio := []
        finalAt := fun _ => Option.some "done"
        current_at_end := ""
        thread_alive := true }
      { stop_event := false
        connected_event := false
        ready_event := false
        current_result := ""
        final_result := Option.none
        sequence_number := 0
        ws := false
        ws_thread := false }).session.final_result = Option.some "done" ∧
    (recognize_audio_file_ws
      { file_exists := true
        connected_in_time := true
        ready_in_time := true
        sock_connected := false
        audio := []
        finalAt := fun _ => Option.some "done"
        current_at_end := ""
        thread_alive := true }
      { stop_event := false
        connected_event := false
        ready_event := false
        current_result := ""
        final_result := Option.none
        sequence_number := 0
        ws := false
        ws_thread := false }).session.ready_event = true := by
  have hp : poll_from (fun _ => Option.some "done") 0 = Option.some "done" := by
    rw [poll_from]
    norm_num
  constructor
  · simp [recognize_audio_file_ws, hp, resolve_final, cleanup_session,
      session_after_reset]
  · simp [recognize_audio_file_ws, hp, resolve_final, cleanup_session,
      session_after_reset]

/-- C8 amended: on every exit path of a streaming attempt that entered the
`try` block (the audio file exists), the `finally` cleanup runs: the stop
signal is set, the connection handle is closed and cleared, and — when the
listener thread is alive — it is joined with the bounded 1-second wait;
the transient session fields (events, results, sequence number) are reset
at the start of each attempt rather than on exit. -/
theorem ws_teardown_on_exit :
    ∀ (env : WsEnv) (s0 : Session),
    env.file_exists = true →
    (recognize_audio_file_ws env s0).session.stop_event = true ∧
    (recognize_audio_file_ws env s0).session.ws = false ∧
    (env.thread_alive = true →
      (recognize_audio_file_ws env s0).join_wait
        = Option.some listener_join_timeout) ∧
    (recognize_audio_file_ws env s0).session_at_start
      = Option.some session_after_reset := by
  intro env s0 hf
  by_cases hc : env.connected_in_time = false
  · refine ⟨?_, ?_, ?_, ?_⟩ <;>
      simp [recognize_audio_file_ws, hf, hc, cleanup_session,
        session_after_reset]
  · rw [Bool.not_eq_false] at hc
    refine ⟨?_, ?_, ?_, ?_⟩ <;>
      simp [recognize_audio_file_ws, hf, hc, cleanup_session,
        session_after_reset]

/-- Witness for `ws_teardown_on_exit` at a concrete failed attempt
(connect timeout): the stop event is set by the `finally` block. -/
theorem ws_teardown_on_exit_witness :
    (recognize_audio_file_ws
      { file_exists := true
        connected_in_time := false
        ready_in_time := false
        sock_connected := false
        audio := []
        finalAt := fun _ => Option.none
        current_at_end := ""
        thread_alive := true }
      { stop_event := false
        connected_event := false
        ready_event := false
        current_result := ""
        final_result := Option.none
        sequence_number := 0
        ws := false
        ws_thread := false }).session.stop_event = true :=
  (ws_teardown_on_exit _ _ rfl).1

/-- C9: a `FULL_SERVER_RESPONSE` frame whose JSON payload parses to a
well-formed object with no `'code'` field is surfaced as an error result,
not a parsed result: `data_dict.get('code', 0)` defaults the missing code
to `0`, which differs from the sole success code `1000`, so the
`code != 1000` branch returns the error dict
`\x7b"error": True, "message": d.get('message', ''), "data": d\x7d`. -/
theorem parse_missing_code_is_error_result
    (gz : List Nat → Option (List Nat)) (jl : String → Option PyVal)
    (body : List Nat) (chars : List Char) (kvs : List (String × PyVal))
    (h31 : body.length < 2147483648)
    (hutf : utf8Decode body = Option.some chars)
    (hjl : jl (String.mk chars) = Option.some (PyVal.dict kvs))
    (hcode : kvs.find? (fun kv => kv.1 == "code") = Option.none) :
    parse_server_response gz jl
      ([0x11, 0x91, 0x10, 0x00] ++ pack_u32_be body.length ++ body)
      = ParseResult.codeError (dict_get kvs "message" (PyVal.str ""))
          (PyVal.dict kvs) := by
  have hdlen : ([17, 145, 16, 0] ++ pack_u32_be body.length ++ body).length
      = 8 + body.length := by
    simp [pack_u32_be]
    omega
  have h0 : ([17, 145, 16, 0] ++ pack_u32_be body.length ++ body).getD 0 0 = 17 := rfl
  have h1 : ([17, 145, 16, 0] ++ pack_u32_be body.length ++ body).getD 1 0 = 145 := rfl
  have h2 : ([17, 145, 16, 0] ++ pack_u32_be body.length ++ body).getD 2 0 = 16 := rfl
  have hmt : msg_type_of ([17, 145, 16, 0] ++ pack_u32_be body.length ++ body) = 9 := by
    simp [msg_type_of, h1]
  have hext : payload_start_of ([17, 145, 16, 0] ++ pack_u32_be body.length ++ body) = 4 := by
    simp [payload_start_of, extension_header_len_of, h0]
  have hpl : payload_of ([17, 145, 16, 0] ++ pack_u32_be body.length ++ body)
      = pack_u32_be body.length ++ body := by
    rw [payload_of, hext]
    rw [show (4 : Int) = ((4 : Nat) : Int) from rfl, pyslice_drop]
    rfl
  have hplen : (pack_u32_be body.length ++ body).length = 4 + body.length := by
    simp [pack_u32_be]
    omega
  have hc04 : pyslice (pack_u32_be body.length ++ body) 0 4 = pack_u32_be body.length := by
    rw [show (0 : Int) = ((0 : Nat) : Int) from rfl,
      show (4 : Int) = ((4 : Nat) : Int) from rfl, pyslice_coe,
      List.take_left' (pack_u32_be_length _), List.drop_zero]
  have hmsg : pyslice (pack_u32_be body.length ++ body) 4 (4 + (body.length : Int)) = body := by
    rw [show (4 : Int) + (body.length : Int) = (((4 + body.length : Nat)) : Int) from by push_cast; ring,
      show (4 : Int) = ((4 : Nat) : Int) from rfl, pyslice_coe,
      List.take_of_length_le (by omega), List.drop_left' (pack_u32_be_length _)]
  have hextract : extract_payload_msg 9 (pack_u32_be body.length ++ body)
      = Option.some body := by
    simp only [extract_payload_msg, hc04, from_bytes_be_signed_pack _ h31, hplen]
    rw [if_pos (show (9 == MessageType.FULL_SERVER_RESPONSE) = true from rfl)]
    rw [if_neg (show ¬ 4 + body.length < 4 from by omega)]
    rw [if_neg (show ¬ ((4 + body.length : Nat) : Int) < 4 + (body.length : Int) from by push_cast; omega)]
    rw [hmsg]
  have hcomp : compression_of ([17, 145, 16, 0] ++ pack_u32_be body.length ++ body) = 0 := by
    simp [compression_of, h2]
  have hser : serialization_of ([17, 145, 16, 0] ++ pack_u32_be body.length ++ body) = 1 := by
    simp [serialization_of, h2]
  simp only [parse_server_response, hmt, hext, hpl, hextract, hcomp, hser,
    hutf, hjl, MessageType.ERROR_RESPONSE, CompressionType.GZIP,
    SerializationMethod.JSON]
  rw [hdlen]
  have c1 : ¬ (8 + body.length < 4) := by omega
  have c2 : ¬ (((8 + body.length : Nat) : Int) < 4) := by push_cast; omega
  simp [c1, c2, hutf, hjl, dict_get, hcode, pyEqInt]
  omega

/-- Witness for `parse_missing_code_is_error_result`: the payload `"{}"`
(bytes `[123, 125]`) with a `json.loads` model mapping it to the empty
dict produces the error result. -/
theorem parse_missing_code_is_error_result_witness :
    parse_server_response (fun _ => Option.none)
      (fun s => if s = String.mk [Char.ofNat 123, Char.ofNat 125] then
          Option.some (PyVal.dict []) else Option.none)
      ([0x11, 0x91, 0x10, 0x00]
        ++ pack_u32_be ([123, 125] : List Nat).length ++ [123, 125])
      = ParseResult.codeError (dict_get [] "message" (PyVal.str ""))
          (PyVal.dict []) :=
  parse_missing_code_is_error_result (fun _ => Option.none)
    (fun s => if s = String.mk [Char.ofNat 123, Char.ofNat 125] then
        Option.some (PyVal.dict []) else Option.none)
    [123, 125] [Char.ofNat 123, Char.ofNat 125] []
    (by decide) rfl rfl rfl

/-- C10: `_parse_server_response` does not validate the header-size
nibble.  For any buffer of at least 4 bytes whose byte-0 low nibble is 0,
the computed extension-header length is `(0 - 1) * 4 = -4`, the payload
start is offset `0`, and the payload slice `data[0:]` is the entire
buffer — the 4 header bytes are re-read as payload — and the
`len(data) < payload_start` check does not reject the buffer. -/
theorem parse_header_size_nibble_zero_payload :
    ∀ (data : List Nat),
    4 ≤ data.length →
    data.getD 0 0 % 16 = 0 →
    extension_header_len_of data = -4 ∧
    payload_start_of data = 0 ∧
    payload_of data = data ∧
    ¬ ((data.length : Int) < payload_start_of data) := by
  intro data h4 h0
  have hext : extension_header_len_of data = -4 := by
    unfold extension_header_len_of
    rw [h0]
    decide
  have hps : payload_start_of data = 0 := by
    rw [payload_start_of, hext]
    decide
  refine ⟨hext, hps, ?_, ?_⟩
  · rw [payload_of, hps]
    have hd := pyslice_drop data 0
    simpa using hd
  · rw [hps]
    omega

/-- Witness for `parse_header_size_nibble_zero_payload` at the concrete
buffer `[0x10, 0x91, 0x10, 0x00]` (header-size nibble 0). -/
theorem parse_header_size_nibble_zero_payload_witness :
    extension_header_len_of [0x10, 0x91, 0x10, 0x00] = -4 ∧
    payload_start_of [0x10, 0x91, 0x10, 0x00] = 0 ∧
    payload_of [0x10, 0x91, 0x10, 0x00] = [0x10, 0x91, 0x10, 0x00] ∧
    ¬ ((([0x10, 0x91, 0x10, 0x00] : List Nat).length : Int)
        < payload_start_of [0x10, 0x91, 0x10, 0x00]) :=
  parse_header_size_nibble_zero_payload [0x10, 0x91, 0x10, 0x00]
    (by decide) (by decide)

/-- C1 counterexample: `_parse_server_response` can raise.  On the
complete 9-byte `FULL_SERVER_RESPONSE` frame
`[0x11, 0x91, 0x10, 0x00, 0x00, 0x00, 0x00, 0x01, 0xFF]` (header size 1,
message type 9, JSON serialization, no compression, declared payload
length 1, payload byte `0xFF`), the payload is not valid UTF-8, so
`payload_msg.decode('utf-8')` raises `UnicodeDecodeError`, which the
function's `except json.JSONDecodeError` clause does not catch — the call
raises instead of returning a value.  Neither `gzip.decompress` nor
`json.loads` is reached on this input, so the chosen stand-ins for them
are irrelevant. -/
theorem parse_server_response_raises_on_invalid_utf8 :
    parse_server_response (fun _ => Option.none) (fun _ => Option.none)
      [0x11, 0x91, 0x10, 0x00, 0x00, 0x00, 0x00, 0x01, 0xFF]
      = ParseResult.raised "UnicodeDecodeError" := rfl

/-- C1 (amended): `_parse_server_response` returns a value — parsed
object, error value, or null — on every input except that a complete
JSON-serialized frame whose payload bytes are not valid UTF-8 raises an
uncaught decode fault; in particular, on any truncation of a
`FullServerResponse` frame (header-size nibble 1, message-type nibble 9,
declared payload length `L`) to fewer than its full `8 + L` bytes it
returns null ("need more data"), never raises and never returns a
spurious result; and the only exception that can escape the function is
the UTF-8 decode fault. -/
theorem parse_truncated_none_and_raises_only_on_utf8 :
    (∀ (gz : List Nat → Option (List Nat)) (jl : String → Option PyVal)
       (b0 b1 b2 b3 : Nat) (body : List Nat) (k : Nat),
      b0 % 16 = 1 → b1 / 16 % 16 = 9 → body.length < 2147483648 →
      k < 8 + body.length →
      parse_server_response gz jl
        (([b0, b1, b2, b3] ++ pack_u32_be body.length ++ body).take k)
        = ParseResult.none) ∧
    (∀ (gz : List Nat → Option (List Nat)) (jl : String → Option PyVal)
       (data : List Nat) (e : String),
      parse_server_response gz jl data = ParseResult.raised e →
      e = "UnicodeDecodeError") := by
  constructor
  · intro gz jl b0 b1 b2 b3 body k h0 h1 h31 hk
    have hfull : ([b0, b1, b2, b3] ++ pack_u32_be body.length ++ body).length
        = 8 + body.length := by
      simp [pack_u32_be]
      omega
    rcases lt_or_ge k 4 with hk4 | hk4
    · have hlen : (([b0, b1, b2, b3] ++ pack_u32_be body.length ++ body).take k).length
          = k := by
        rw [List.length_take, hfull]
        omega
      simp only [parse_server_response]
      rw [if_pos (by rw [hlen]; omega)]
    · obtain ⟨m, rfl⟩ : ∃ m, k = 4 + m := ⟨k - 4, by omega⟩
      have hm : m < 4 + body.length := by omega
      have htake : ([b0, b1, b2, b3] ++ pack_u32_be body.length ++ body).take (4 + m)
          = b0 :: b1 :: b2 :: b3 :: ((pack_u32_be body.length ++ body).take m) := by
        rw [List.append_assoc, List.take_append_eq_append_take,
          List.take_of_length_le (by simp)]
        simp
      rw [htake]
      have hplen : ((pack_u32_be body.length ++ body).take m).length = m := by
        rw [List.length_take]
        simp only [List.length_append, pack_u32_be_length]
        omega
      have hdlen : (b0 :: b1 :: b2 :: b3 :: ((pack_u32_be body.length ++ body).take m)).length
          = 4 + m := by
        simp [hplen]
        omega
      have hps : payload_start_of
          (b0 :: b1 :: b2 :: b3 :: ((pack_u32_be body.length ++ body).take m)) = 4 := by
        unfold payload_start_of extension_header_len_of
        rw [show (b0 :: b1 :: b2 :: b3 :: ((pack_u32_be body.length ++ body).take m)).getD 0 0
          = b0 from rfl, h0]
        decide
      have hmt : msg_type_of
          (b0 :: b1 :: b2 :: b3 :: ((pack_u32_be body.length ++ body).take m)) = 9 := by
        unfold msg_type_of
        rw [show (b0 :: b1 :: b2 :: b3 :: ((pack_u32_be body.length ++ body).take m)).getD 1 0
          = b1 from rfl, h1]
      have hpl : payload_of
          (b0 :: b1 :: b2 :: b3 :: ((pack_u32_be body.length ++ body).take m))
          = (pack_u32_be body.length ++ body).take m := by
        rw [payload_of, hps]
        rw [show (4 : Int) = ((4 : Nat) : Int) from rfl, pyslice_drop]
        rfl
      have hextract : extract_payload_msg 9 ((pack_u32_be body.length ++ body).take m)
          = Option.none := by
        rcases lt_or_ge m 4 with hm4 | hm4
        · rw [extract_payload_msg]
          rw [if_pos (show (9 == MessageType.FULL_SERVER_RESPONSE) = true from rfl)]
          rw [if_pos (by rw [hplen]; omega)]
        · have hc04 : pyslice ((pack_u32_be body.length ++ body).take m) 0 4
              = pack_u32_be body.length := by
            rw [show (0 : Int) = ((0 : Nat) : Int) from rfl,
              show (4 : Int) = ((4 : Nat) : Int) from rfl, pyslice_coe,
              List.drop_zero, List.take_take, Nat.min_eq_left hm4,
              List.take_left' (pack_u32_be_length _)]
          simp only [extract_payload_msg, hc04, from_bytes_be_signed_pack _ h31, hplen]
          rw [if_pos (show (9 == MessageType.FULL_SERVER_RESPONSE) = true from rfl)]
          rw [if_neg (show ¬ m < 4 from by omega)]
          rw [if_pos (show ((m : Nat) : Int) < 4 + (body.length : Int) from by push_cast; omega)]
      simp only [parse_server_response, hmt, hps, hpl, hextract, hdlen]
      rw [if_neg (show ¬ 4 + m < 4 from by omega)]
      rw [if_neg (show ¬ ((4 + m : Nat) : Int) < 4 from by push_cast; omega)]
  · intro gz jl data e h
    simp only [parse_server_response] at h
    repeat' (first
      | (split at h)
      | (injection h with h1; exact h1.symm)
      | (injection h))

/-- Witness for `parse_truncated_none_and_raises_only_on_utf8`: a
3-byte truncation of a frame with a 1-byte payload parses to null. -/
theorem parse_truncated_none_and_raises_only_on_utf8_witness :
    parse_server_response (fun _ => Option.none) (fun _ => Option.none)
      (([17, 145, 16, 0] ++ pack_u32_be ([65] : List Nat).length ++ [65]).take 3)
      = ParseResult.none :=
  parse_truncated_none_and_raises_only_on_utf8.1 (fun _ => Option.none)
    (fun _ => Option.none) 17 145 16 0 [65] 3 (by decide) (by decide)
    (by decide) (by decide)

/-- C4: `_build_full_client_request` produces
`header(FullClientRequest, NONE, JSON, Gzip) ++ pack('>I', size) ++ payload`
where `payload` is the gzip-compressed JSON configuration and `size` its
byte count; decoding the header with the decode-side nibble extractions
recovers exactly the message-type, serialization and compression tags that
were set; and the per-call request identifier is embedded in the JSON body
(the body decomposes around `reqid`, and distinct identifiers give
distinct bodies, so each fresh `uuid4` yields a fresh body). -/
theorem build_full_client_request_spec :
    ∀ (gzip_compress : List Nat → List Nat) (appid token cluster : String)
      (ts rate : Nat) (reqid : String),
    (gzip_compress (utf8Encode
        (full_client_payload_json appid token cluster ts rate reqid))).length
      < 4294967296 →
    (build_full_client_request gzip_compress appid token cluster ts rate reqid).take 4
      = build_header MessageType.FULL_CLIENT_REQUEST MessageFlags.NONE
          SerializationMethod.JSON CompressionType.GZIP ∧
    msg_type_of
        (build_full_client_request gzip_compress appid token cluster ts rate reqid)
      = MessageType.FULL_CLIENT_REQUEST ∧
    serialization_of
        (build_full_client_request gzip_compress appid token cluster ts rate reqid)
      = SerializationMethod.JSON ∧
    compression_of
        (build_full_client_request gzip_compress appid token cluster ts rate reqid)
      = CompressionType.GZIP ∧
    from_bytes_be
        (((build_full_client_request gzip_compress appid token cluster ts rate
          reqid).drop 4).take 4)
      = (gzip_compress (utf8Encode
          (full_client_payload_json appid token cluster ts rate reqid))).length ∧
    (build_full_client_request gzip_compress appid token cluster ts rate reqid).drop 8
      = gzip_compress (utf8Encode
          (full_client_payload_json appid token cluster ts rate reqid)) ∧
    (∃ pre post, full_client_payload_json appid token cluster ts rate reqid
      = pre ++ reqid ++ post) ∧
    (∀ reqid2, full_client_payload_json appid token cluster ts rate reqid
        = full_client_payload_json appid token cluster ts rate reqid2 →
      reqid = reqid2) := by
  intro gzc appid token cluster ts rate reqid hlt
  have hb1 : (build_full_client_request gzc appid token cluster ts rate
      reqid).getD 1 0
      = (MessageType.FULL_CLIENT_REQUEST <<< 4) ||| MessageFlags.NONE := rfl
  have hb2 : (build_full_client_request gzc appid token cluster ts rate
      reqid).getD 2 0
      = (SerializationMethod.JSON <<< 4) ||| CompressionType.GZIP := rfl
  refine ⟨?_, ?_, ?_, ?_, ?_, ?_, ?_, ?_⟩
  · simp only [build_full_client_request]
    rw [List.append_assoc]
    exact List.take_left' rfl
  · simp only [msg_type_of]
    rw [hb1]
    decide
  · simp only [serialization_of]
    rw [hb2]
    decide
  · simp only [compression_of]
    rw [hb2]
    decide
  · simp only [build_full_client_request]
    rw [List.append_assoc,
      List.drop_left' (show (build_header MessageType.FULL_CLIENT_REQUEST
        MessageFlags.NONE SerializationMethod.JSON CompressionType.GZIP).length
        = 4 from rfl),
      List.take_left' (pack_u32_be_length _)]
    exact from_bytes_be_pack _ hlt
  · simp only [build_full_client_request]
    exact List.drop_left' rfl
  · exact ⟨_, _, rfl⟩
  · intro reqid2 h
    have hd := congrArg String.data h
    simp only [full_client_payload_json, String.data_append] at hd
    exact String.ext (List.append_cancel_left (List.append_cancel_right hd))

set_option maxRecDepth 8000 in
/-- Witness for `build_full_client_request_spec` at a concrete
configuration with the identity standing in for `gzip.compress`. -/
theorem build_full_client_request_spec_witness :
    (build_full_client_request id "a" "t" "c" 0 16000 "r").take 4
      = build_header MessageType.FULL_CLIENT_REQUEST MessageFlags.NONE
          SerializationMethod.JSON CompressionType.GZIP :=
  (build_full_client_request_spec id "a" "t" "c" 0 16000 "r" (by decide)).1
